import Mathlib

/-!
# Verification of the `Shellies` device registry and discovery coordinator

A shallow embedding of the `Shellies` class declared in
`src/dist/shellies.d.ts`.  The repository ships only the type
declarations of the class; the operation bodies (`add`, `has`, `get`,
`delete`, `clear`, `getDeviceOptions`, `createRpcHandler`,
`handleDiscoveredDevice`) are therefore modelled from the
natural-language specification (`spec.md` §3, §4, §5, §7) and from the
doc comments in the declaration file.

The registry's `Map<DeviceId, Device>` is embedded as an association
list with unique keys; the `Set<string>` fields (`pendingDevices`,
`ignoredDevices`) as lists of ids with membership as the set relation.
Asynchronous discovery handling is split into its synchronous receipt
phase (the dedup check and Pending insert, which the spec requires to
happen before any suspension) and its post-suspension continuation; an
`inflight` list records the occurrences that passed the first phase and
whose continuation has not run yet.
-/

namespace Shellies

/-- Device ids are opaque, globally unique strings (`spec.md` §3). -/
abbrev DeviceId := String

/-- `DeviceIdentifiers` from `src/dist/shellies.d.ts` line 3 / `spec.md` §3:
the device id, a model/class designation, and optional
transport-reachability info (an address). -/
structure DeviceIdentifiers where
  deviceId : DeviceId
  model : String
  hostname : Option String
deriving DecidableEq, Repr

/-- The two transport protocols of `DeviceOptions.protocol`
(`src/dist/shellies.d.ts` line 16). -/
inductive Protocol where
  | websocket
  | outboundWebsocket
deriving DecidableEq, Repr

/-- `DeviceOptions` (`src/dist/shellies.d.ts` lines 8–22). -/
structure DeviceOptions where
  exclude : Bool
  protocol : Option Protocol
  password : Option String
deriving DecidableEq, Repr

/-- `Partial<DeviceOptions>`: every field optional. -/
structure PartialDeviceOptions where
  exclude : Option Bool
  protocol : Option Protocol
  password : Option String
deriving DecidableEq, Repr

/-- A `Device` (`src/devices`, opaque to the core): the registry holds it
by its identity; `payload` stands for all internals the core never
inspects, and lets two distinct instances share one id. -/
structure Device where
  deviceId : DeviceId
  payload : Nat
deriving DecidableEq, Repr

/-- An `OutboundWebSocketServer` instance (`src/dist/shellies.d.ts`
line 39); opaque to the core. -/
structure OutboundWebSocketServer where
  tag : Nat
deriving DecidableEq, Repr

/-- An `RpcHandler` as produced by the transport factory (`spec.md` §4.3):
either a direct WebSocket connection to the device's address, or a
handler bound to the outbound server keyed by device id. -/
inductive RpcHandler where
  | websocket (hostname : String) (password : Option String)
  | outboundWebsocket (deviceId : DeviceId)
deriving DecidableEq, Repr

/-- Error taxonomy (`spec.md` §7): `duplicateKey` for an explicit `add` of
a present identity; the configuration errors for transport construction
(missing outbound server, missing reachability info). -/
inductive ShelliesError where
  | duplicateKey
  | missingWebsocketServer
  | missingHostname
deriving DecidableEq, Repr

/-- The five observable event kinds (`src/dist/shellies.d.ts`
lines 53–74). -/
inductive Event where
  | add (device : Device)
  | remove (device : Device)
  | error (deviceId : DeviceId) (err : ShelliesError)
  | exclude (deviceId : DeviceId)
  | unknown (deviceId : DeviceId) (model : String) (identifiers : DeviceIdentifiers)
deriving DecidableEq, Repr

/-- `ShelliesOptions.deviceOptions` (`src/dist/shellies.d.ts` line 51):
a static table, a callback, or `null` — never more than one. -/
inductive DeviceOptionsSource where
  | table (entries : List (DeviceId × PartialDeviceOptions))
  | callback (fn : DeviceId → Option PartialDeviceOptions)
  | null

/-- The configuration and collaborators fixed at construction time:
the optional outbound WebSocket server, the device-options source, the
caller-supplied device constructor capability (`deviceClasses` maps a
model designation to a recognized class, or none for "unrecognized
model"), and the construction of device internals from identifiers and
a transport handler. -/
structure Config where
  websocketServer : Option OutboundWebSocketServer
  deviceOptions : DeviceOptionsSource
  deviceClasses : String → Option Nat
  construct : Nat → DeviceIdentifiers → RpcHandler → Nat

/-- The mutable state of a `Shellies` instance: the registry map
(`devices`), the Pending set (`pendingDevices`), the Ignored set
(`ignoredDevices`), and the discovery occurrences that passed the
synchronous dedup phase but whose continuation has not yet resumed
(`inflight`). -/
structure CoordState where
  devices : List (DeviceId × Device)
  pendingDevices : List DeviceId
  ignoredDevices : List DeviceId
  inflight : List DeviceIdentifiers
deriving DecidableEq, Repr

instance exceptDecEq {ε α : Type} [DecidableEq ε] [DecidableEq α] :
    DecidableEq (Except ε α) := fun x y =>
  match x, y with
  | .ok a, .ok b =>
    if h : a = b then isTrue (by rw [h])
    else isFalse (fun hh => h (by injection hh))
  | .ok _, .error _ => isFalse (fun hh => Except.noConfusion hh)
  | .error _, .ok _ => isFalse (fun hh => Except.noConfusion hh)
  | .error e, .error f =>
    if h : e = f then isTrue (by rw [h])
    else isFalse (fun hh => h (by injection hh))

/-- The constructor starts with all collections empty. -/
def initialState : CoordState :=
  { devices := [], pendingDevices := [], ignoredDevices := [], inflight := [] }

/-- Association-list lookup, the model of `Map.get`. -/
def assocLookup {β : Type} : List (DeviceId × β) → DeviceId → Option β
  | [], _ => none
  | e :: rest, k => if e.1 = k then some e.2 else assocLookup rest k

/-- Remove every occurrence of an id from a set of ids. -/
def removeId : List DeviceId → DeviceId → List DeviceId
  | [], _ => []
  | x :: rest, deviceId =>
    if x = deviceId then removeId rest deviceId
    else x :: removeId rest deviceId

/-- Remove the binding for a key from an association list. -/
def eraseKey {β : Type} : List (DeviceId × β) → DeviceId → List (DeviceId × β)
  | [], _ => []
  | e :: rest, k =>
    if e.1 = k then eraseKey rest k
    else e :: eraseKey rest k

/-- Remove the in-flight occurrences for an id. -/
def removeInflight : List DeviceIdentifiers → DeviceId → List DeviceIdentifiers
  | [], _ => []
  | j :: rest, deviceId =>
    if j.deviceId = deviceId then removeInflight rest deviceId
    else j :: removeInflight rest deviceId

/-- `deviceOrId` arguments (`Device | DeviceId`) resolve to the id. -/
def deviceIdOf : Device ⊕ DeviceId → DeviceId
  | .inl d => d.deviceId
  | .inr deviceId => deviceId

/-- Modelled from the spec: `add(device)` (§4.1) — registers the device
under its identity; fails with DuplicateKey if the identity is already
registered; on success emits `add`. -/
def addDevice (s : CoordState) (device : Device) :
    Except ShelliesError (CoordState × List Event) :=
  match assocLookup s.devices device.deviceId with
  | some _ => .error .duplicateKey
  | none =>
    .ok ({ s with devices := (device.deviceId, device) :: s.devices }, [.add device])

/-- Modelled from the spec: `has(deviceOrId)` (§4.1) — true iff the
identity is currently registered. -/
def hasDevice (s : CoordState) (deviceOrId : Device ⊕ DeviceId) : Bool :=
  (assocLookup s.devices (deviceIdOf deviceOrId)).isSome

/-- Modelled from the spec: `get(id)` (§4.1) — the device or not-found. -/
def getDevice (s : CoordState) (deviceId : DeviceId) : Option Device :=
  assocLookup s.devices deviceId

/-- Modelled from the spec: `delete(deviceOrId)` (§4.1) — removes if
present, returns whether a removal occurred, emits `remove` on success. -/
def deleteDevice (s : CoordState) (deviceOrId : Device ⊕ DeviceId) :
    Bool × CoordState × List Event :=
  match assocLookup s.devices (deviceIdOf deviceOrId) with
  | none => (false, s, [])
  | some d =>
    (true,
     { s with devices := eraseKey s.devices (deviceIdOf deviceOrId) },
     [.remove d])

/-- Modelled from the spec: `clear()` (§4.1) — removes all devices, each
removal independently emitting `remove`. -/
def clearDevices (s : CoordState) : CoordState × List Event :=
  ({ s with devices := [] }, List.map (fun e => Event.remove e.2) s.devices)

/-- Modelled from the spec: `size` — the number of registered devices. -/
def sizeOf (s : CoordState) : Nat :=
  s.devices.length

/-- The all-defaults options: not excluded, no protocol override, no
password (`spec.md` §4.2). -/
def defaultDeviceOptions : DeviceOptions :=
  { exclude := false, protocol := none, password := none }

/-- Merge the fields of a partial options record over the defaults. -/
def mergePartial (p : PartialDeviceOptions) : DeviceOptions :=
  { exclude := p.exclude.getD defaultDeviceOptions.exclude,
    protocol := (p.protocol).orElse (fun _ => defaultDeviceOptions.protocol),
    password := (p.password).orElse (fun _ => defaultDeviceOptions.password) }

/-- Modelled from the spec: `getDeviceOptions(deviceId)` (§4.2) — if a
callback is configured, merge its returned partial fields over the
defaults; otherwise, if a table is configured, merge the entry found for
the id over the defaults; otherwise all defaults.  Read fresh on every
call: the result depends only on the configured source and the id. -/
def getDeviceOptions (cfg : Config) (deviceId : DeviceId) : DeviceOptions :=
  match cfg.deviceOptions with
  | .callback fn =>
    match fn deviceId with
    | some p => mergePartial p
    | none => defaultDeviceOptions
  | .table entries =>
    match assocLookup entries deviceId with
    | some p => mergePartial p
    | none => defaultDeviceOptions
  | .null => defaultDeviceOptions

/-- Modelled from the spec: `createRpcHandler(identifiers, options)`
(§4.3) — `outboundWebsocket` requires the configured server and yields a
handler keyed by device id; otherwise (explicit `websocket` or no
protocol override) a direct connection to the device's address is built,
failing when no reachability info is present. -/
def createRpcHandler (cfg : Config) (identifiers : DeviceIdentifiers)
    (options : DeviceOptions) : Except ShelliesError RpcHandler :=
  match options.protocol with
  | some .outboundWebsocket =>
    match cfg.websocketServer with
    | some _ => .ok (.outboundWebsocket identifiers.deviceId)
    | none => .error .missingWebsocketServer
  | _ =>
    match identifiers.hostname with
    | some h => .ok (.websocket h options.password)
    | none => .error .missingHostname

/-- Modelled from the spec: the synchronous receipt phase of
`handleDiscoveredDevice` (§4.4 step 1, §5) — the dedup check against the
registry, Pending and Ignored sets and the Pending insert happen in one
non-suspending step, before any asynchronous work; an occurrence that
passes the check is recorded as in flight. -/
def handleDiscover (s : CoordState) (identifiers : DeviceIdentifiers) :
    CoordState × List Event :=
  let deviceId := identifiers.deviceId
  if (assocLookup s.devices deviceId).isSome ∨ deviceId ∈ s.pendingDevices ∨
      deviceId ∈ s.ignoredDevices then
    (s, [])
  else
    ({ s with pendingDevices := deviceId :: s.pendingDevices,
              inflight := identifiers :: s.inflight }, [])

/-- Modelled from the spec: the continuation of `handleDiscoveredDevice`
after its suspension (§4.4 step 2, §7) — resolve options; if excluded,
move the id from Pending to Ignored and emit `exclude`; if the model is
unrecognized, move it to Ignored and emit `unknown`; if transport
construction fails, clear Pending (leaving the id eligible for
rediscovery) and emit `error`; otherwise construct the device, clear
Pending and commit it to the registry via `add` (emitting `add`), any
failure of the pipeline being converted into an `error` event. -/
def resumeDiscovery (cfg : Config) (s : CoordState)
    (identifiers : DeviceIdentifiers) : CoordState × List Event :=
  let deviceId := identifiers.deviceId
  let options := getDeviceOptions cfg deviceId
  if options.exclude then
    ({ s with pendingDevices := removeId s.pendingDevices deviceId,
              ignoredDevices := deviceId :: s.ignoredDevices }, [.exclude deviceId])
  else
    match cfg.deviceClasses identifiers.model with
    | none =>
      ({ s with pendingDevices := removeId s.pendingDevices deviceId,
                ignoredDevices := deviceId :: s.ignoredDevices },
       [.unknown deviceId identifiers.model identifiers])
    | some cls =>
      match createRpcHandler cfg identifiers options with
      | .error err =>
        ({ s with pendingDevices := removeId s.pendingDevices deviceId },
         [.error deviceId err])
      | .ok handler =>
        let device : Device := ⟨deviceId, cfg.construct cls identifiers handler⟩
        match addDevice { s with pendingDevices := removeId s.pendingDevices deviceId }
            device with
        | .ok (s₂, events) => (s₂, events)
        | .error err =>
          ({ s with pendingDevices := removeId s.pendingDevices deviceId },
           [.error deviceId err])

/-- Resumption of a suspended discovery occurrence: only an occurrence
recorded as in flight can resume, and it resumes exactly once. -/
def resumeStep (cfg : Config) (s : CoordState)
    (identifiers : DeviceIdentifiers) : CoordState × List Event :=
  if identifiers ∈ s.inflight then
    resumeDiscovery cfg
      { s with inflight := removeInflight s.inflight identifiers.deviceId }
      identifiers
  else
    (s, [])

/-- The operations observable on a `Shellies` instance: delivery of a
`discover` event (its synchronous phase), resumption of a suspended
discovery, and the explicit registry operations. -/
inductive Op where
  | discover (identifiers : DeviceIdentifiers)
  | resume (identifiers : DeviceIdentifiers)
  | addOp (device : Device)
  | deleteOp (deviceOrId : Device ⊕ DeviceId)
  | clearOp
deriving DecidableEq, Repr

/-- One operation applied to the state; a failing explicit `add` throws
and thus leaves the state unchanged and emits nothing. -/
def applyOp (cfg : Config) (s : CoordState) : Op → CoordState × List Event
  | .discover identifiers => handleDiscover s identifiers
  | .resume identifiers => resumeStep cfg s identifiers
  | .addOp device =>
    match addDevice s device with
    | .ok (s₂, events) => (s₂, events)
    | .error _ => (s, [])
  | .deleteOp deviceOrId =>
    let r := deleteDevice s deviceOrId
    (r.2.1, r.2.2)
  | .clearOp =>
    clearDevices s

/-- A run of the coordinator: operations applied in sequence, events
concatenated in order. -/
def runOps (cfg : Config) (s : CoordState) : List Op → CoordState × List Event
  | [] => (s, [])
  | op :: ops =>
    let r₁ := applyOp cfg s op
    let r₂ := runOps cfg r₁.1 ops
    (r₂.1, r₁.2 ++ r₂.2)

/-- The coordinator's state invariant: Pending and Ignored identities are
unregistered, Pending and Ignored are disjoint, every in-flight
occurrence is Pending, and no two in-flight occurrences share an id. -/
def WF (s : CoordState) : Prop :=
  (∀ deviceId ∈ s.pendingDevices, assocLookup s.devices deviceId = none) ∧
  (∀ deviceId ∈ s.ignoredDevices, assocLookup s.devices deviceId = none) ∧
  (∀ deviceId ∈ s.pendingDevices, deviceId ∉ s.ignoredDevices) ∧
  (∀ j ∈ s.inflight, j.deviceId ∈ s.pendingDevices) ∧
  (List.map (fun j => j.deviceId) s.inflight).Nodup

instance (s : CoordState) : Decidable (WF s) := by
  unfold WF
  infer_instance

/-- Does an add event for this id occur? -/
def isAddFor (deviceId : DeviceId) : Event → Bool
  | .add d => d.deviceId = deviceId
  | _ => false

/-- Does an exclude event for this id occur? -/
def isExcludeFor (deviceId : DeviceId) : Event → Bool
  | .exclude d => d = deviceId
  | _ => false

/-- Does an unknown event for this id occur? -/
def isUnknownFor (deviceId : DeviceId) : Event → Bool
  | .unknown d _ _ => d = deviceId
  | _ => false

/-- Is this operation a delivery or resumption of a discover event for
this identity? -/
def discoverFor (deviceId : DeviceId) : Op → Bool
  | .discover j => j.deviceId = deviceId
  | .resume j => j.deviceId = deviceId
  | _ => false

/-- Is this operation part of discovery handling (either phase)? -/
def discoverOnly : Op → Bool
  | .discover _ => true
  | .resume _ => true
  | _ => false

/-- Does this operation remove the given identity from the registry
(an explicit delete of that identity, or a clear)? -/
def removesId (deviceId : DeviceId) : Op → Bool
  | .deleteOp x => deviceIdOf x = deviceId
  | .clearOp => true
  | _ => false

/-- Number of `add` events for an identity in an event trace. -/
def countAdd (deviceId : DeviceId) (events : List Event) : Nat :=
  List.countP (fun e => isAddFor deviceId e) events

/-- Number of `exclude` events for an identity in an event trace. -/
def countExclude (deviceId : DeviceId) (events : List Event) : Nat :=
  List.countP (fun e => isExcludeFor deviceId e) events

/-- Number of `unknown` events for an identity in an event trace. -/
def countUnknown (deviceId : DeviceId) (events : List Event) : Nat :=
  List.countP (fun e => isUnknownFor deviceId e) events

/-- Joint count of `exclude` and `unknown` events for an identity. -/
def countIgn (deviceId : DeviceId) (events : List Event) : Nat :=
  countExclude deviceId events + countUnknown deviceId events

/-- The Pending/Registry and Ignored/Registry mutual-exclusion property
of the spec's data model (`spec.md` §3). -/
def MutualExclusion (s : CoordState) : Prop :=
  (∀ deviceId ∈ s.pendingDevices, assocLookup s.devices deviceId = none) ∧
  (∀ deviceId ∈ s.ignoredDevices, assocLookup s.devices deviceId = none)

instance (s : CoordState) : Decidable (MutualExclusion s) := by
  unfold MutualExclusion
  infer_instance

/-! ### Concrete fixtures used by the witnesses and counterexample -/

/-- Identifiers of the spec's example device. -/
def jFix : DeviceIdentifiers :=
  { deviceId := "shellyplus1-AA", model := "SPSW-001", hostname := some "10.0.0.5" }

/-- A second discovery occurrence for the same identity from a different
address. -/
def jFix2 : DeviceIdentifiers :=
  { deviceId := "shellyplus1-AA", model := "SPSW-001", hostname := some "10.0.0.6" }

/-- A configuration with no device options, recognizing the example
model. -/
def cfgFix : Config :=
  { websocketServer := none,
    deviceOptions := .null,
    deviceClasses := fun m => if m = "SPSW-001" then some 1 else none,
    construct := fun c _ _ => c }

/-- A state in which the example identity is Pending with its occurrence
in flight. -/
def sPendingFix : CoordState :=
  { devices := [],
    pendingDevices := ["shellyplus1-AA"],
    ignoredDevices := [],
    inflight := [jFix] }

/-- A registered device instance for the example identity. -/
def devFix : Device :=
  { deviceId := "shellyplus1-AA", payload := 1 }

/-- A state in which the example identity is registered. -/
def sRegFix : CoordState :=
  { devices := [("shellyplus1-AA", devFix)],
    pendingDevices := [],
    ignoredDevices := [],
    inflight := [] }

/-- A callback-configured options source used by the C7 witness. -/
def cfgCallbackFix : Config :=
  { websocketServer := none,
    deviceOptions := .callback (fun d =>
      if d = "shellyplus1-AA" then
        some { exclude := none, protocol := some .outboundWebsocket,
               password := some "secret" }
      else none),
    deviceClasses := fun _ => none,
    construct := fun c _ _ => c }

/-- Identifiers of the device driven to the Ignored set through
exclusion, used for C3. -/
def jExclFix : DeviceIdentifiers :=
  { deviceId := "shellyplus1-AA", model := "SPSW-001", hostname := some "10.0.0.5" }

/-- A configuration whose options table excludes the example id. -/
def cfgExclFix : Config :=
  { websocketServer := none,
    deviceOptions := .table
      [("shellyplus1-AA",
        { exclude := some true, protocol := none, password := none })],
    deviceClasses := fun m => if m = "SPSW-001" then some 1 else none,
    construct := fun c _ _ => c }

/-- A configuration requesting the outbound protocol for the example id
with no server configured, used for C6. -/
def cfgOutboundFix : Config :=
  { websocketServer := none,
    deviceOptions := .table
      [("shellyplus1-AA",
        { exclude := none, protocol := some .outboundWebsocket, password := none })],
    deviceClasses := fun m => if m = "SPSW-001" then some 1 else none,
    construct := fun c _ _ => c }

theorem assocLookup_nil {β : Type} (k : DeviceId) :
    assocLookup ([] : List (DeviceId × β)) k = none := rfl

theorem assocLookup_cons {β : Type} (e : DeviceId × β) (l : List (DeviceId × β))
    (k : DeviceId) :
    assocLookup (e :: l) k = if e.1 = k then some e.2 else assocLookup l k := rfl

theorem assocLookup_cons_ne {β : Type} {e : DeviceId × β} {k : DeviceId}
    (l : List (DeviceId × β)) (h : ¬ (e.1 = k)) :
    assocLookup (e :: l) k = assocLookup l k := by
  simp [assocLookup, h]

theorem assocLookup_eq_none_iff {β : Type} (l : List (DeviceId × β)) (k : DeviceId) :
    assocLookup l k = none ↔ ∀ e ∈ l, ¬ (e.1 = k) := by
  induction l with
  | nil => simp [assocLookup]
  | cons e rest ih =>
    by_cases h : e.1 = k
    · simp [assocLookup, h]
    · simp [assocLookup, h, ih]

theorem assocLookup_eraseKey_ne {β : Type} (l : List (DeviceId × β)) {k k' : DeviceId}
    (h : ¬ (k' = k)) :
    assocLookup (eraseKey l k') k = assocLookup l k := by
  induction l with
  | nil => rfl
  | cons e rest ih =>
    rw [eraseKey]
    by_cases he : e.1 = k'
    · rw [if_pos he]
      have hek : ¬ (e.1 = k) := fun hk => h (he ▸ hk)
      rw [assocLookup_cons_ne _ hek]
      exact ih
    · rw [if_neg he, assocLookup_cons, assocLookup_cons]
      by_cases hk : e.1 = k
      · rw [if_pos hk, if_pos hk]
      · rw [if_neg hk, if_neg hk]
        exact ih

theorem assocLookup_eraseKey_self {β : Type} (l : List (DeviceId × β)) (k : DeviceId) :
    assocLookup (eraseKey l k) k = none := by
  induction l with
  | nil => rfl
  | cons e rest ih =>
    rw [eraseKey]
    by_cases he : e.1 = k
    · rw [if_pos he]
      exact ih
    · rw [if_neg he, assocLookup_cons, if_neg he]
      exact ih

theorem mem_removeId {ids : List DeviceId} {x deviceId : DeviceId} :
    x ∈ removeId ids deviceId ↔ x ∈ ids ∧ ¬ (x = deviceId) := by
  induction ids with
  | nil => simp [removeId]
  | cons y rest ih =>
    by_cases hy : y = deviceId
    · simp only [removeId, if_pos hy, ih, List.mem_cons]
      constructor
      · rintro ⟨hx, hne⟩
        exact ⟨Or.inr hx, hne⟩
      · rintro ⟨hx | hx, hne⟩
        · exact absurd (hx.trans hy) hne
        · exact ⟨hx, hne⟩
    · simp only [removeId, if_neg hy, List.mem_cons, ih]
      constructor
      · rintro (hx | ⟨hx, hne⟩)
        · exact ⟨Or.inl hx, hx ▸ hy⟩
        · exact ⟨Or.inr hx, hne⟩
      · rintro ⟨hx | hx, hne⟩
        · exact Or.inl hx
        · exact Or.inr ⟨hx, hne⟩

theorem mem_removeInflight {infl : List DeviceIdentifiers}
    {j : DeviceIdentifiers} {deviceId : DeviceId} :
    j ∈ removeInflight infl deviceId ↔ j ∈ infl ∧ ¬ (j.deviceId = deviceId) := by
  induction infl with
  | nil => simp [removeInflight]
  | cons i rest ih =>
    by_cases hi : i.deviceId = deviceId
    · simp only [removeInflight, if_pos hi, ih, List.mem_cons]
      constructor
      · rintro ⟨hx, hne⟩
        exact ⟨Or.inr hx, hne⟩
      · rintro ⟨hx | hx, hne⟩
        · exact absurd (hx ▸ hi) hne
        · exact ⟨hx, hne⟩
    · simp only [removeInflight, if_neg hi, List.mem_cons, ih]
      constructor
      · rintro (hx | ⟨hx, hne⟩)
        · exact ⟨Or.inl hx, hx ▸ hi⟩
        · exact ⟨Or.inr hx, hne⟩
      · rintro ⟨hx | hx, hne⟩
        · exact Or.inl hx
        · exact Or.inr ⟨hx, hne⟩

theorem removeInflight_sublist (infl : List DeviceIdentifiers) (deviceId : DeviceId) :
    List.Sublist (removeInflight infl deviceId) infl := by
  induction infl with
  | nil => simp [removeInflight]
  | cons i rest ih =>
    by_cases hi : i.deviceId = deviceId
    · rw [removeInflight, if_pos hi]
      exact ih.trans (List.sublist_cons_self i rest)
    · rw [removeInflight, if_neg hi]
      exact ih.cons₂ i

theorem countP_key_eq_zero {β : Type} {l : List (DeviceId × β)} {k : DeviceId}
    (h : assocLookup l k = none) :
    List.countP (fun e => e.1 = k) l = 0 := by
  rw [List.countP_eq_zero]
  intro e he
  have := (assocLookup_eq_none_iff l k).mp h e he
  simpa using this

theorem addDevice_ok {s : CoordState} {device : Device} {s₂ : CoordState}
    {events : List Event} (h : addDevice s device = .ok (s₂, events)) :
    assocLookup s.devices device.deviceId = none ∧
      s₂ = { s with devices := (device.deviceId, device) :: s.devices } ∧
      events = [Event.add device] := by
  unfold addDevice at h
  split at h
  · exact absurd h (by simp)
  · refine ⟨by assumption, ?_, ?_⟩ <;> simp_all

theorem addDevice_error {s : CoordState} {device : Device} {err : ShelliesError}
    (h : addDevice s device = .error err) :
    err = .duplicateKey ∧ (assocLookup s.devices device.deviceId).isSome := by
  unfold addDevice at h
  split at h
  · simp_all
  · exact absurd h (by simp)

/-- Complete case analysis of the discovery continuation: it either
moves the id to Ignored with a single `exclude` or `unknown` event, or
clears Pending with a single `error` event, or commits a new device with
a single `add` event; the registry is only ever extended in the last
case, and only when the id was unregistered. -/
theorem resumeDiscovery_cases (cfg : Config) (s : CoordState)
    (j : DeviceIdentifiers) :
    (∃ ev,
      resumeDiscovery cfg s j =
        ({ devices := s.devices,
           pendingDevices := removeId s.pendingDevices j.deviceId,
           ignoredDevices := j.deviceId :: s.ignoredDevices,
           inflight := s.inflight }, [ev]) ∧
      (ev = Event.exclude j.deviceId ∨ ev = Event.unknown j.deviceId j.model j)) ∨
    (∃ err,
      resumeDiscovery cfg s j =
        ({ devices := s.devices,
           pendingDevices := removeId s.pendingDevices j.deviceId,
           ignoredDevices := s.ignoredDevices,
           inflight := s.inflight }, [Event.error j.deviceId err])) ∨
    (∃ device : Device, device.deviceId = j.deviceId ∧
      assocLookup s.devices j.deviceId = none ∧
      resumeDiscovery cfg s j =
        ({ devices := (j.deviceId, device) :: s.devices,
           pendingDevices := removeId s.pendingDevices j.deviceId,
           ignoredDevices := s.ignoredDevices,
           inflight := s.inflight }, [Event.add device])) := by
  cases hexc : (getDeviceOptions cfg j.deviceId).exclude with
  | true =>
    left
    exact ⟨Event.exclude j.deviceId, by simp [resumeDiscovery, hexc], Or.inl rfl⟩
  | false =>
    cases hcls : cfg.deviceClasses j.model with
    | none =>
      left
      exact ⟨Event.unknown j.deviceId j.model j,
        by simp [resumeDiscovery, hexc, hcls], Or.inr rfl⟩
    | some cls =>
      cases hrpc : createRpcHandler cfg j (getDeviceOptions cfg j.deviceId) with
      | error err =>
        right; left
        exact ⟨err, by simp [resumeDiscovery, hexc, hcls, hrpc]⟩
      | ok handler =>
        cases hadd : addDevice
            { s with pendingDevices := removeId s.pendingDevices j.deviceId }
            (⟨j.deviceId, cfg.construct cls j handler⟩ : Device) with
        | error err =>
          right; left
          exact ⟨err, by simp [resumeDiscovery, hexc, hcls, hrpc, hadd]⟩
        | ok pr =>
          obtain ⟨s₂, events⟩ := pr
          have h3 := addDevice_ok hadd
          right; right
          refine ⟨⟨j.deviceId, cfg.construct cls j handler⟩, rfl, ?_, ?_⟩
          · simpa using h3.1
          · have hres : resumeDiscovery cfg s j = (s₂, events) := by
              simp [resumeDiscovery, hexc, hcls, hrpc, hadd]
            rw [hres, h3.2.1, h3.2.2]

/-- The same case analysis lifted to `resumeStep` on an in-flight
occurrence: the in-flight record for the id is consumed as well. -/
theorem resumeStep_mem_cases (cfg : Config) (s : CoordState)
    (j : DeviceIdentifiers) (hmem : j ∈ s.inflight) :
    (∃ ev,
      resumeStep cfg s j =
        ({ devices := s.devices,
           pendingDevices := removeId s.pendingDevices j.deviceId,
           ignoredDevices := j.deviceId :: s.ignoredDevices,
           inflight := removeInflight s.inflight j.deviceId }, [ev]) ∧
      (ev = Event.exclude j.deviceId ∨ ev = Event.unknown j.deviceId j.model j)) ∨
    (∃ err,
      resumeStep cfg s j =
        ({ devices := s.devices,
           pendingDevices := removeId s.pendingDevices j.deviceId,
           ignoredDevices := s.ignoredDevices,
           inflight := removeInflight s.inflight j.deviceId },
         [Event.error j.deviceId err])) ∨
    (∃ device : Device, device.deviceId = j.deviceId ∧
      assocLookup s.devices j.deviceId = none ∧
      resumeStep cfg s j =
        ({ devices := (j.deviceId, device) :: s.devices,
           pendingDevices := removeId s.pendingDevices j.deviceId,
           ignoredDevices := s.ignoredDevices,
           inflight := removeInflight s.inflight j.deviceId },
         [Event.add device])) := by
  have hstep : resumeStep cfg s j =
      resumeDiscovery cfg { s with inflight := removeInflight s.inflight j.deviceId } j := by
    rw [resumeStep, if_pos hmem]
  rcases resumeDiscovery_cases cfg
      { s with inflight := removeInflight s.inflight j.deviceId } j with
    ⟨ev, heq, hev⟩ | ⟨err, heq⟩ | ⟨device, hid, hlk, heq⟩
  · left
    exact ⟨ev, by rw [hstep, heq], hev⟩
  · right; left
    exact ⟨err, by rw [hstep, heq]⟩
  · right; right
    exact ⟨device, hid, hlk, by rw [hstep, heq]⟩

theorem assocLookup_cons_self {β : Type} (k : DeviceId) (v : β)
    (l : List (DeviceId × β)) :
    assocLookup ((k, v) :: l) k = some v := by
  simp [assocLookup]

theorem assocLookup_eraseKey_none {β : Type} {l : List (DeviceId × β)}
    {p : DeviceId} (k : DeviceId) (h : assocLookup l p = none) :
    assocLookup (eraseKey l k) p = none := by
  by_cases hk : k = p
  · rw [hk]
    exact assocLookup_eraseKey_self l p
  · rw [assocLookup_eraseKey_ne l hk]
    exact h

/-- The synchronous discovery phase either drops the event (id already
registered, Pending or Ignored) or atomically marks it Pending and
records the in-flight occurrence; it never emits events. -/
theorem handleDiscover_cases (s : CoordState) (j : DeviceIdentifiers) :
    (((assocLookup s.devices j.deviceId).isSome ∨ j.deviceId ∈ s.pendingDevices ∨
        j.deviceId ∈ s.ignoredDevices) ∧
      handleDiscover s j = (s, [])) ∨
    (assocLookup s.devices j.deviceId = none ∧ j.deviceId ∉ s.pendingDevices ∧
      j.deviceId ∉ s.ignoredDevices ∧
      handleDiscover s j =
        ({ s with pendingDevices := j.deviceId :: s.pendingDevices,
                  inflight := j :: s.inflight }, [])) := by
  by_cases hc : (assocLookup s.devices j.deviceId).isSome ∨
      j.deviceId ∈ s.pendingDevices ∨ j.deviceId ∈ s.ignoredDevices
  · left
    exact ⟨hc, by rw [handleDiscover, if_pos hc]⟩
  · right
    push_neg at hc
    have h1 : assocLookup s.devices j.deviceId = none := by
      cases hl : assocLookup s.devices j.deviceId with
      | none => rfl
      | some d => exact absurd (by rw [hl]; rfl) hc.1
    have hcond : ¬ ((assocLookup s.devices j.deviceId).isSome = true ∨
        j.deviceId ∈ s.pendingDevices ∨ j.deviceId ∈ s.ignoredDevices) := by
      rintro (h | h | h)
      · exact hc.1 h
      · exact hc.2.1 h
      · exact hc.2.2 h
    exact ⟨h1, hc.2.1, hc.2.2, by rw [handleDiscover, if_neg hcond]⟩

/-- Effect of a discovery operation (either phase) on the registry:
either the registry is untouched and no `add` event fires, or exactly
one new, previously unregistered device is prepended and the single
emitted event is its `add`. -/
theorem applyOp_discover_devices (cfg : Config) (s : CoordState) (op : Op)
    (hop : discoverOnly op = true) :
    ((applyOp cfg s op).1.devices = s.devices ∧
      ∀ k, countAdd k (applyOp cfg s op).2 = 0) ∨
    (∃ device : Device,
      assocLookup s.devices device.deviceId = none ∧
      (applyOp cfg s op).1.devices = (device.deviceId, device) :: s.devices ∧
      (applyOp cfg s op).2 = [Event.add device]) := by
  cases op with
  | discover j =>
    rcases handleDiscover_cases s j with ⟨_, heq⟩ | ⟨_, _, _, heq⟩
    · left
      rw [applyOp, heq]
      exact ⟨rfl, fun k => rfl⟩
    · left
      rw [applyOp, heq]
      exact ⟨rfl, fun k => rfl⟩
  | resume j =>
    by_cases hmem : j ∈ s.inflight
    · rcases resumeStep_mem_cases cfg s j hmem with
        ⟨ev, heq, hev⟩ | ⟨err, heq⟩ | ⟨device, hid, hlk, heq⟩
      · left
        rw [applyOp, heq]
        refine ⟨rfl, fun k => ?_⟩
        rcases hev with h | h <;> simp [h, countAdd, isAddFor]
      · left
        rw [applyOp, heq]
        exact ⟨rfl, fun k => by simp [countAdd, isAddFor]⟩
      · right
        refine ⟨device, by rw [← hid] at hlk; exact hlk, ?_, ?_⟩
        · rw [applyOp, heq, hid]
        · rw [applyOp, heq]
    · left
      rw [applyOp, resumeStep, if_neg hmem]
      exact ⟨rfl, fun k => rfl⟩
  | addOp d => exact absurd hop (by simp [discoverOnly])
  | deleteOp x => exact absurd hop (by simp [discoverOnly])
  | clearOp => exact absurd hop (by simp [discoverOnly])

theorem countAdd_single_add (deviceId : DeviceId) (device : Device) :
    countAdd deviceId [Event.add device] =
      if device.deviceId = deviceId then 1 else 0 := by
  by_cases h : device.deviceId = deviceId <;>
    simp [countAdd, isAddFor, h]

theorem countAdd_append (deviceId : DeviceId) (a b : List Event) :
    countAdd deviceId (a ++ b) = countAdd deviceId a + countAdd deviceId b := by
  simp [countAdd, List.countP_append]

/-- Over any sequence of discovery operations, at most one `add` event
fires for a given identity, and none at all if it is already
registered. -/
theorem runOps_countAdd_le (cfg : Config) (deviceId : DeviceId) :
    ∀ ops : List Op, ∀ s : CoordState,
      (∀ op ∈ ops, discoverOnly op = true) →
      countAdd deviceId (runOps cfg s ops).2 ≤
        (if (assocLookup s.devices deviceId).isSome then 0 else 1) := by
  intro ops
  induction ops with
  | nil =>
    intro s _
    simp [runOps, countAdd]
  | cons op rest ih =>
    intro s hops
    have hop : discoverOnly op = true := hops op (List.mem_cons_self op rest)
    have hrest : ∀ o ∈ rest, discoverOnly o = true :=
      fun o ho => hops o (List.mem_cons_of_mem op ho)
    simp only [runOps]
    rw [countAdd_append]
    rcases applyOp_discover_devices cfg s op hop with
      ⟨hdev, hcnt⟩ | ⟨device, hlk, hdev, hevs⟩
    · rw [hcnt deviceId]
      have h2 := ih (applyOp cfg s op).1 hrest
      rw [hdev] at h2
      rw [Nat.zero_add]
      exact h2
    · by_cases hd : device.deviceId = deviceId
      · have h1 : countAdd deviceId (applyOp cfg s op).2 = 1 := by
          rw [hevs, countAdd_single_add, if_pos hd]
        have h3 : (assocLookup (applyOp cfg s op).1.devices deviceId).isSome = true := by
          rw [hdev, hd, assocLookup_cons_self]
          rfl
        have h2 := ih (applyOp cfg s op).1 hrest
        rw [if_pos h3] at h2
        have h4 : assocLookup s.devices deviceId = none := hd ▸ hlk
        rw [h1, h4]
        have hb : (if ((none : Option Device)).isSome = true then (0 : Nat) else 1) = 1 := by
          simp
        rw [hb]
        omega
      · have h1 : countAdd deviceId (applyOp cfg s op).2 = 0 := by
          rw [hevs, countAdd_single_add, if_neg hd]
        have h3 : assocLookup (applyOp cfg s op).1.devices deviceId =
            assocLookup s.devices deviceId := by
          rw [hdev]
          exact assocLookup_cons_ne _ hd
        have h2 := ih (applyOp cfg s op).1 hrest
        rw [h3] at h2
        rw [h1, Nat.zero_add]
        exact h2

/-- The synchronous discovery phase preserves the coordinator
invariant. -/
theorem wf_handleDiscover {s : CoordState} (hwf : WF s) (j : DeviceIdentifiers) :
    WF (handleDiscover s j).1 := by
  obtain ⟨hw1, hw2, hw3, hw4, hw5⟩ := hwf
  rcases handleDiscover_cases s j with ⟨_, heq⟩ | ⟨hlk, hpend, hign, heq⟩
  · rw [heq]
    exact ⟨hw1, hw2, hw3, hw4, hw5⟩
  · rw [heq]
    refine ⟨?_, hw2, ?_, ?_, ?_⟩
    · intro p hp
      rcases List.mem_cons.mp hp with hp | hp
      · rw [hp]
        exact hlk
      · exact hw1 p hp
    · intro p hp
      rcases List.mem_cons.mp hp with hp | hp
      · rw [hp]
        exact hign
      · exact hw3 p hp
    · intro i hi
      rcases List.mem_cons.mp hi with hi | hi
      · rw [hi]
        exact List.mem_cons_self _ _
      · exact List.mem_cons_of_mem _ (hw4 i hi)
    · rw [List.map_cons]
      refine List.nodup_cons.mpr ⟨?_, hw5⟩
      intro hmem
      rcases List.mem_map.mp hmem with ⟨i, hi, hieq⟩
      exact hpend (hieq ▸ hw4 i hi)

/-- Resuming a discovery occurrence preserves the coordinator
invariant. -/
theorem wf_resumeStep (cfg : Config) {s : CoordState} (hwf : WF s)
    (j : DeviceIdentifiers) :
    WF (resumeStep cfg s j).1 := by
  obtain ⟨hw1, hw2, hw3, hw4, hw5⟩ := hwf
  by_cases hmem : j ∈ s.inflight
  · have hjp : j.deviceId ∈ s.pendingDevices := hw4 j hmem
    have hji : j.deviceId ∉ s.ignoredDevices := hw3 _ hjp
    have hjd : assocLookup s.devices j.deviceId = none := hw1 _ hjp
    have hinfl : ∀ i ∈ removeInflight s.inflight j.deviceId,
        i.deviceId ∈ removeId s.pendingDevices j.deviceId := by
      intro i hi
      obtain ⟨hi1, hi2⟩ := mem_removeInflight.mp hi
      exact mem_removeId.mpr ⟨hw4 i hi1, hi2⟩
    have hnodup : (List.map (fun i => i.deviceId)
        (removeInflight s.inflight j.deviceId)).Nodup :=
      List.Nodup.sublist ((removeInflight_sublist _ _).map _) hw5
    rcases resumeStep_mem_cases cfg s j hmem with
      ⟨ev, heq, _⟩ | ⟨err, heq⟩ | ⟨device, hid, hlk, heq⟩
    · rw [heq]
      refine ⟨?_, ?_, ?_, hinfl, hnodup⟩
      · intro p hp
        exact hw1 p (mem_removeId.mp hp).1
      · intro g hg
        rcases List.mem_cons.mp hg with hg | hg
        · rw [hg]
          exact hjd
        · exact hw2 g hg
      · intro p hp
        obtain ⟨hp1, hp2⟩ := mem_removeId.mp hp
        intro hg
        rcases List.mem_cons.mp hg with hg | hg
        · exact hp2 hg
        · exact hw3 p hp1 hg
    · rw [heq]
      refine ⟨?_, hw2, ?_, hinfl, hnodup⟩
      · intro p hp
        exact hw1 p (mem_removeId.mp hp).1
      · intro p hp
        exact hw3 p (mem_removeId.mp hp).1
    · rw [heq]
      refine ⟨?_, ?_, ?_, hinfl, hnodup⟩
      · intro p hp
        obtain ⟨hp1, hp2⟩ := mem_removeId.mp hp
        rw [assocLookup_cons_ne _ (fun hk => hp2 hk.symm)]
        exact hw1 p hp1
      · intro g hg
        have hgj : ¬ (j.deviceId = g) := fun hk => hji (hk ▸ hg)
        rw [assocLookup_cons_ne _ hgj]
        exact hw2 g hg
      · intro p hp
        exact hw3 p (mem_removeId.mp hp).1
  · rw [resumeStep, if_neg hmem]
    exact ⟨hw1, hw2, hw3, hw4, hw5⟩

/-- Discovery handling (either phase) preserves the coordinator
invariant. -/
theorem wf_applyOp_discover (cfg : Config) {s : CoordState} (hwf : WF s)
    {op : Op} (hop : discoverOnly op = true) :
    WF (applyOp cfg s op).1 := by
  cases op with
  | discover j => exact wf_handleDiscover hwf j
  | resume j => exact wf_resumeStep cfg hwf j
  | addOp d => exact absurd hop (by simp [discoverOnly])
  | deleteOp x => exact absurd hop (by simp [discoverOnly])
  | clearOp => exact absurd hop (by simp [discoverOnly])

theorem countIgn_append (deviceId : DeviceId) (a b : List Event) :
    countIgn deviceId (a ++ b) = countIgn deviceId a + countIgn deviceId b := by
  simp only [countIgn, countExclude, countUnknown, List.countP_append]
  omega

/-- Effect of one discovery operation on the Ignored set and on the
`exclude`/`unknown` events for a given identity: either no such event
fires and the identity's Ignored membership is unchanged, or the
identity was not Ignored, at most one such event fires, and the identity
becomes Ignored. -/
theorem applyOp_discover_ign (cfg : Config) (s : CoordState) (op : Op)
    (deviceId : DeviceId) (hwf : WF s) (hop : discoverOnly op = true) :
    (countIgn deviceId (applyOp cfg s op).2 = 0 ∧
      (deviceId ∈ (applyOp cfg s op).1.ignoredDevices ↔
        deviceId ∈ s.ignoredDevices)) ∨
    (deviceId ∉ s.ignoredDevices ∧ countIgn deviceId (applyOp cfg s op).2 ≤ 1 ∧
      deviceId ∈ (applyOp cfg s op).1.ignoredDevices) := by
  obtain ⟨hw1, hw2, hw3, hw4, hw5⟩ := hwf
  cases op with
  | discover j =>
    rcases handleDiscover_cases s j with ⟨_, heq⟩ | ⟨_, _, _, heq⟩
    · left
      rw [applyOp, heq]
      exact ⟨rfl, Iff.rfl⟩
    · left
      rw [applyOp, heq]
      exact ⟨rfl, Iff.rfl⟩
  | resume j =>
    by_cases hmem : j ∈ s.inflight
    · have hjp : j.deviceId ∈ s.pendingDevices := hw4 j hmem
      have hji : j.deviceId ∉ s.ignoredDevices := hw3 _ hjp
      rcases resumeStep_mem_cases cfg s j hmem with
        ⟨ev, heq, hev⟩ | ⟨err, heq⟩ | ⟨device, hid, hlk, heq⟩
      · by_cases hd : j.deviceId = deviceId
        · right
          refine ⟨hd ▸ hji, ?_, ?_⟩
          · rw [applyOp, heq]
            rcases hev with h | h <;>
              simp [h, hd, countIgn, countExclude, countUnknown, isExcludeFor,
                isUnknownFor]
          · rw [applyOp, heq]
            exact hd ▸ List.mem_cons_self _ _
        · left
          refine ⟨?_, ?_⟩
          · rw [applyOp, heq]
            rcases hev with h | h <;>
              simp [h, countIgn, countExclude, countUnknown, isExcludeFor,
                isUnknownFor, hd]
          · rw [applyOp, heq]
            simp only [List.mem_cons]
            constructor
            · rintro (h | h)
              · exact absurd h.symm hd
              · exact h
            · exact Or.inr
      · left
        rw [applyOp, heq]
        exact ⟨by simp [countIgn, countExclude, countUnknown, isExcludeFor,
          isUnknownFor], Iff.rfl⟩
      · left
        rw [applyOp, heq]
        exact ⟨by simp [countIgn, countExclude, countUnknown, isExcludeFor,
          isUnknownFor], Iff.rfl⟩
    · left
      rw [applyOp, resumeStep, if_neg hmem]
      exact ⟨rfl, Iff.rfl⟩
  | addOp d => exact absurd hop (by simp [discoverOnly])
  | deleteOp x => exact absurd hop (by simp [discoverOnly])
  | clearOp => exact absurd hop (by simp [discoverOnly])

/-- Over any sequence of discovery operations from an invariant-respecting
state, the `exclude` and `unknown` events for a given identity number at
most one in total, and none at all if the identity is already Ignored. -/
theorem runOps_countIgn_le (cfg : Config) (deviceId : DeviceId) :
    ∀ ops : List Op, ∀ s : CoordState, WF s →
      (∀ op ∈ ops, discoverOnly op = true) →
      countIgn deviceId (runOps cfg s ops).2 ≤
        (if deviceId ∈ s.ignoredDevices then 0 else 1) := by
  intro ops
  induction ops with
  | nil =>
    intro s _ _
    simp [runOps, countIgn, countExclude, countUnknown]
  | cons op rest ih =>
    intro s hwf hops
    have hop : discoverOnly op = true := hops op (List.mem_cons_self op rest)
    have hrest : ∀ o ∈ rest, discoverOnly o = true :=
      fun o ho => hops o (List.mem_cons_of_mem op ho)
    have hwf1 : WF (applyOp cfg s op).1 := wf_applyOp_discover cfg hwf hop
    have h2 := ih (applyOp cfg s op).1 hwf1 hrest
    simp only [runOps]
    rw [countIgn_append]
    rcases applyOp_discover_ign cfg s op deviceId hwf hop with
      ⟨hc0, hiff⟩ | ⟨hnot, hle, hmem⟩
    · by_cases hm : deviceId ∈ s.ignoredDevices
      · rw [if_pos hm]
        rw [if_pos (hiff.mpr hm)] at h2
        omega
      · rw [if_neg hm]
        rw [if_neg (fun h => hm (hiff.mp h))] at h2
        omega
    · rw [if_neg hnot]
      rw [if_pos hmem] at h2
      omega

/-- A registered binding survives any operation that is not an explicit
delete of that identity or a clear: discovery handling never overwrites
a registered device (the commit goes through `add`, which fails on a
duplicate), a duplicate explicit `add` throws and changes nothing, and
deleting another identity does not touch this binding. -/
theorem applyOp_preserves_binding (cfg : Config) {s : CoordState}
    {deviceId : DeviceId} {d : Device} (op : Op)
    (hlk : assocLookup s.devices deviceId = some d)
    (hop : removesId deviceId op = false) :
    assocLookup (applyOp cfg s op).1.devices deviceId = some d := by
  cases op with
  | discover j =>
    rcases handleDiscover_cases s j with ⟨_, heq⟩ | ⟨_, _, _, heq⟩ <;>
      rw [applyOp, heq] <;> exact hlk
  | resume j =>
    by_cases hmem : j ∈ s.inflight
    · rcases resumeStep_mem_cases cfg s j hmem with
        ⟨ev, heq, _⟩ | ⟨err, heq⟩ | ⟨device, hid, hlk2, heq⟩
      · rw [applyOp, heq]
        exact hlk
      · rw [applyOp, heq]
        exact hlk
      · rw [applyOp, heq]
        have hne : ¬ (j.deviceId = deviceId) := by
          intro hk
          rw [hk, hlk] at hlk2
          exact Option.noConfusion hlk2
        rw [assocLookup_cons_ne _ hne]
        exact hlk
    · rw [applyOp, resumeStep, if_neg hmem]
      exact hlk
  | addOp device =>
    cases hadd : addDevice s device with
    | ok pr =>
      obtain ⟨s₂, events⟩ := pr
      obtain ⟨hlk2, hs2, _⟩ := addDevice_ok hadd
      rw [applyOp, hadd, hs2]
      have hne : ¬ (device.deviceId = deviceId) := by
        intro hk
        rw [hk, hlk] at hlk2
        exact Option.noConfusion hlk2
      rw [assocLookup_cons_ne _ hne]
      exact hlk
    | error err =>
      rw [applyOp, hadd]
      exact hlk
  | deleteOp x =>
    have hne : ¬ (deviceIdOf x = deviceId) := by
      intro hk
      rw [removesId] at hop
      exact absurd (decide_eq_true_eq.mpr hk) (by simp [hop])
    rw [applyOp, deleteDevice]
    cases hdel : assocLookup s.devices (deviceIdOf x) with
    | none => exact hlk
    | some d₂ =>
      simp only []
      rw [assocLookup_eraseKey_ne _ hne]
      exact hlk
  | clearOp =>
    exact absurd hop (by simp [removesId])

/-- A registered binding survives a whole run of operations none of
which deletes that identity or clears the registry. -/
theorem runOps_preserves_binding (cfg : Config) {deviceId : DeviceId} {d : Device} :
    ∀ ops : List Op, ∀ s : CoordState,
      assocLookup s.devices deviceId = some d →
      (∀ op ∈ ops, removesId deviceId op = false) →
      assocLookup (runOps cfg s ops).1.devices deviceId = some d := by
  intro ops
  induction ops with
  | nil =>
    intro s hlk _
    exact hlk
  | cons op rest ih =>
    intro s hlk hops
    simp only [runOps]
    exact ih (applyOp cfg s op).1
      (applyOp_preserves_binding cfg op hlk (hops op (List.mem_cons_self op rest)))
      (fun o ho => hops o (List.mem_cons_of_mem op ho))

/-- `delete` preserves the coordinator invariant. -/
theorem wf_deleteDevice {s : CoordState} (hwf : WF s)
    (x : Device ⊕ DeviceId) :
    WF (deleteDevice s x).2.1 := by
  obtain ⟨hw1, hw2, hw3, hw4, hw5⟩ := hwf
  rw [deleteDevice]
  cases hdel : assocLookup s.devices (deviceIdOf x) with
  | none => exact ⟨hw1, hw2, hw3, hw4, hw5⟩
  | some d =>
    refine ⟨?_, ?_, hw3, hw4, hw5⟩
    · intro p hp
      exact assocLookup_eraseKey_none _ (hw1 p hp)
    · intro g hg
      exact assocLookup_eraseKey_none _ (hw2 g hg)

/-- `clear` preserves the coordinator invariant. -/
theorem wf_clearDevices {s : CoordState} (hwf : WF s) :
    WF (clearDevices s).1 := by
  obtain ⟨_, _, hw3, hw4, hw5⟩ := hwf
  exact ⟨fun p _ => rfl, fun g _ => rfl, hw3, hw4, hw5⟩

/-- A successful explicit `add` of an identity that is neither Pending
nor Ignored preserves the coordinator invariant. -/
theorem wf_addDevice_fresh {s : CoordState} (hwf : WF s) {device : Device}
    {s₂ : CoordState} {events : List Event}
    (hadd : addDevice s device = .ok (s₂, events))
    (hp : device.deviceId ∉ s.pendingDevices)
    (hi : device.deviceId ∉ s.ignoredDevices) :
    WF s₂ := by
  obtain ⟨hw1, hw2, hw3, hw4, hw5⟩ := hwf
  obtain ⟨_, hs2, _⟩ := addDevice_ok hadd
  rw [hs2]
  refine ⟨?_, ?_, hw3, hw4, hw5⟩
  · intro p hpp
    have hne : ¬ (device.deviceId = p) := fun hk => hp (hk ▸ hpp)
    rw [assocLookup_cons_ne _ hne]
    exact hw1 p hpp
  · intro g hgg
    have hne : ¬ (device.deviceId = g) := fun hk => hi (hk ▸ hgg)
    rw [assocLookup_cons_ne _ hne]
    exact hw2 g hgg

theorem not_mem_removeId_self (ids : List DeviceId) (deviceId : DeviceId) :
    deviceId ∉ removeId ids deviceId :=
  fun h => (mem_removeId.mp h).2 rfl

theorem runOps_cons (cfg : Config) (s : CoordState) (op : Op) (ops : List Op) :
    runOps cfg s (op :: ops) =
      ((runOps cfg (applyOp cfg s op).1 ops).1,
        (applyOp cfg s op).2 ++ (runOps cfg (applyOp cfg s op).1 ops).2) := rfl

/-- The success path of the discovery continuation: options do not
exclude, the model is recognized, the transport handler builds — the
device is constructed and committed, `add` fires. -/
theorem resumeDiscovery_success (cfg : Config) (s : CoordState)
    (j : DeviceIdentifiers) (cls : Nat) (handler : RpcHandler)
    (hexc : (getDeviceOptions cfg j.deviceId).exclude = false)
    (hcls : cfg.deviceClasses j.model = some cls)
    (hrpc : createRpcHandler cfg j (getDeviceOptions cfg j.deviceId) = .ok handler)
    (hlk : assocLookup s.devices j.deviceId = none) :
    resumeDiscovery cfg s j =
      ({ devices :=
           (j.deviceId, ⟨j.deviceId, cfg.construct cls j handler⟩) :: s.devices,
         pendingDevices := removeId s.pendingDevices j.deviceId,
         ignoredDevices := s.ignoredDevices,
         inflight := s.inflight },
       [Event.add ⟨j.deviceId, cfg.construct cls j handler⟩]) := by
  have hadd : addDevice
      { s with pendingDevices := removeId s.pendingDevices j.deviceId }
      (⟨j.deviceId, cfg.construct cls j handler⟩ : Device) =
      .ok ({ devices :=
               (j.deviceId, ⟨j.deviceId, cfg.construct cls j handler⟩) :: s.devices,
             pendingDevices := removeId s.pendingDevices j.deviceId,
             ignoredDevices := s.ignoredDevices,
             inflight := s.inflight },
           [Event.add ⟨j.deviceId, cfg.construct cls j handler⟩]) := by
    simp only [addDevice]
    rw [hlk]
  simp only [resumeDiscovery, hexc, Bool.false_eq_true, if_false, hcls, hrpc, hadd]

/-- The transport-failure path of the discovery continuation: options do
not exclude, the model is recognized, but the handler cannot be built —
Pending is cleared, Ignored untouched, a single `error` fires. -/
theorem resumeDiscovery_rpc_error (cfg : Config) (s : CoordState)
    (j : DeviceIdentifiers) (cls : Nat) (err : ShelliesError)
    (hexc : (getDeviceOptions cfg j.deviceId).exclude = false)
    (hcls : cfg.deviceClasses j.model = some cls)
    (hrpc : createRpcHandler cfg j (getDeviceOptions cfg j.deviceId) = .error err) :
    resumeDiscovery cfg s j =
      ({ devices := s.devices,
         pendingDevices := removeId s.pendingDevices j.deviceId,
         ignoredDevices := s.ignoredDevices,
         inflight := s.inflight },
       [Event.error j.deviceId err]) := by
  simp only [resumeDiscovery, hexc, Bool.false_eq_true, if_false, hcls, hrpc]

/-! ### The claims -/

/-- C1: for every DeviceId and every sequence of discover events
(deliveries and their resumptions) for that identity while it is
Pending, Registered or Ignored, at most one `add`, at most one `exclude`
and at most one `unknown` event is ever emitted for that identity. -/
theorem C1_discover_idempotence (cfg : Config) (s : CoordState)
    (deviceId : DeviceId) (ops : List Op) (hwf : WF s)
    (_hstate : deviceId ∈ s.pendingDevices ∨
      (assocLookup s.devices deviceId).isSome = true ∨
      deviceId ∈ s.ignoredDevices)
    (hops : ∀ op ∈ ops, discoverFor deviceId op = true) :
    countAdd deviceId (runOps cfg s ops).2 ≤ 1 ∧
      countExclude deviceId (runOps cfg s ops).2 ≤ 1 ∧
      countUnknown deviceId (runOps cfg s ops).2 ≤ 1 := by
  have honly : ∀ op ∈ ops, discoverOnly op = true := by
    intro op hmem
    have h := hops op hmem
    cases op <;> simp_all [discoverFor, discoverOnly]
  have hadd := runOps_countAdd_le cfg deviceId ops s honly
  have hign := runOps_countIgn_le cfg deviceId ops s hwf honly
  have hb1 : (if (assocLookup s.devices deviceId).isSome = true then (0 : Nat) else 1) ≤ 1 := by
    split <;> omega
  have hb2 : (if deviceId ∈ s.ignoredDevices then (0 : Nat) else 1) ≤ 1 := by
    split <;> omega
  refine ⟨le_trans hadd hb1, ?_, ?_⟩
  · have h : countExclude deviceId (runOps cfg s ops).2 ≤
        countIgn deviceId (runOps cfg s ops).2 := Nat.le_add_right _ _
    exact le_trans h (le_trans hign hb2)
  · have h : countUnknown deviceId (runOps cfg s ops).2 ≤
        countIgn deviceId (runOps cfg s ops).2 := Nat.le_add_left _ _
    exact le_trans h (le_trans hign hb2)

/-- Witness for C1 at a concrete Pending state and a concrete event
sequence. -/
theorem C1_discover_idempotence_witness :
    WF sPendingFix ∧
      ("shellyplus1-AA" ∈ sPendingFix.pendingDevices ∨
        (assocLookup sPendingFix.devices "shellyplus1-AA").isSome = true ∨
        "shellyplus1-AA" ∈ sPendingFix.ignoredDevices) ∧
      (∀ op ∈ [Op.resume jFix, Op.discover jFix2, Op.resume jFix2],
        discoverFor "shellyplus1-AA" op = true) ∧
      (countAdd "shellyplus1-AA"
          (runOps cfgFix sPendingFix
            [Op.resume jFix, Op.discover jFix2, Op.resume jFix2]).2 ≤ 1 ∧
        countExclude "shellyplus1-AA"
          (runOps cfgFix sPendingFix
            [Op.resume jFix, Op.discover jFix2, Op.resume jFix2]).2 ≤ 1 ∧
        countUnknown "shellyplus1-AA"
          (runOps cfgFix sPendingFix
            [Op.resume jFix, Op.discover jFix2, Op.resume jFix2]).2 ≤ 1) :=
  ⟨by decide, by decide, by decide,
    C1_discover_idempotence cfgFix sPendingFix "shellyplus1-AA"
      [Op.resume jFix, Op.discover jFix2, Op.resume jFix2]
      (by decide) (by decide) (by decide)⟩

/-- C4: after `add(device)` succeeds, `has(device)`, `has(id)` and
`get(id) = device` all hold, and continue to hold across any sequence of
operations that contains no delete of that identity and no clear. -/
theorem C4_add_persistence (cfg : Config) (s : CoordState) (d : Device)
    (s₀ : CoordState) (events : List Event) (ops : List Op)
    (hadd : addDevice s d = .ok (s₀, events))
    (hops : ∀ op ∈ ops, removesId d.deviceId op = false) :
    hasDevice (runOps cfg s₀ ops).1 (.inl d) = true ∧
      hasDevice (runOps cfg s₀ ops).1 (.inr d.deviceId) = true ∧
      getDevice (runOps cfg s₀ ops).1 d.deviceId = some d := by
  obtain ⟨hlk, hs0, _⟩ := addDevice_ok hadd
  have h0 : assocLookup s₀.devices d.deviceId = some d := by
    rw [hs0]
    exact assocLookup_cons_self _ _ _
  have h1 := runOps_preserves_binding cfg ops s₀ h0 hops
  refine ⟨?_, ?_, h1⟩
  · simp only [hasDevice, deviceIdOf, h1, Option.isSome_some]
  · simp only [hasDevice, deviceIdOf, h1, Option.isSome_some]

/-- Witness for C4: the example device stays registered across a delete
of another identity and a rediscovery attempt. -/
theorem C4_add_persistence_witness :
    addDevice initialState devFix = .ok (sRegFix, [Event.add devFix]) ∧
      (∀ op ∈ [Op.deleteOp (.inr "other"), Op.discover jFix2],
        removesId "shellyplus1-AA" op = false) ∧
      (hasDevice
          (runOps cfgFix sRegFix [Op.deleteOp (.inr "other"), Op.discover jFix2]).1
          (.inl devFix) = true ∧
        hasDevice
          (runOps cfgFix sRegFix [Op.deleteOp (.inr "other"), Op.discover jFix2]).1
          (.inr "shellyplus1-AA") = true ∧
        getDevice
          (runOps cfgFix sRegFix [Op.deleteOp (.inr "other"), Op.discover jFix2]).1
          "shellyplus1-AA" = some devFix) :=
  ⟨by decide, by decide,
    C4_add_persistence cfgFix initialState devFix sRegFix [Event.add devFix]
      [Op.deleteOp (.inr "other"), Op.discover jFix2] (by decide) (by decide)⟩

/-- C5: an explicit `add` of a device whose identity is already
registered fails with DuplicateKey (thrown, so no event is emitted and
the state is unchanged), the previously registered device is still
returned by `get`, and `size` is unchanged. -/
theorem C5_duplicate_add (cfg : Config) (s : CoordState) (d d' : Device)
    (hlk : assocLookup s.devices d.deviceId = some d') :
    addDevice s d = .error .duplicateKey ∧
      applyOp cfg s (.addOp d) = (s, []) ∧
      getDevice s d.deviceId = some d' ∧
      sizeOf (applyOp cfg s (.addOp d)).1 = sizeOf s := by
  have herr : addDevice s d = .error .duplicateKey := by
    rw [addDevice, hlk]
  refine ⟨herr, ?_, hlk, ?_⟩
  · simp only [applyOp, herr]
  · simp only [applyOp, herr]

/-- Witness for C5: adding a second instance under the registered
example identity fails and changes nothing. -/
theorem C5_duplicate_add_witness :
    assocLookup sRegFix.devices "shellyplus1-AA" = some devFix ∧
      (addDevice sRegFix ⟨"shellyplus1-AA", 99⟩ = .error .duplicateKey ∧
        applyOp cfgFix sRegFix (.addOp ⟨"shellyplus1-AA", 99⟩) = (sRegFix, []) ∧
        getDevice sRegFix "shellyplus1-AA" = some devFix ∧
        sizeOf (applyOp cfgFix sRegFix (.addOp ⟨"shellyplus1-AA", 99⟩)).1 =
          sizeOf sRegFix) :=
  ⟨by decide, C5_duplicate_add cfgFix sRegFix ⟨"shellyplus1-AA", 99⟩ devFix (by decide)⟩

/-- C8: `clear()` emits one `remove` event per registered device — the
event list is exactly the per-device removals, so its length is the
registry size — and afterwards `size` is `0`. -/
theorem C8_clear_emits_all (s : CoordState) :
    (clearDevices s).2 = List.map (fun e => Event.remove e.2) s.devices ∧
      ((clearDevices s).2).length = sizeOf s ∧
      sizeOf (clearDevices s).1 = 0 := by
  refine ⟨rfl, ?_, rfl⟩
  simp [clearDevices, sizeOf]

/-- C9: `delete` of an absent identity returns false, emits nothing and
leaves the whole state unchanged; `delete` of a registered identity
returns true, emits `remove` with the registered device, and
unregisters it. -/
theorem C9_delete_semantics (s : CoordState) (x : Device ⊕ DeviceId) :
    (hasDevice s x = false → deleteDevice s x = (false, s, [])) ∧
      (∀ d, getDevice s (deviceIdOf x) = some d →
        (deleteDevice s x).1 = true ∧
          (deleteDevice s x).2.2 = [Event.remove d] ∧
          getDevice (deleteDevice s x).2.1 (deviceIdOf x) = none) := by
  constructor
  · intro h
    have hlk : assocLookup s.devices (deviceIdOf x) = none := by
      rw [hasDevice] at h
      cases hl : assocLookup s.devices (deviceIdOf x) with
      | none => rfl
      | some d =>
        rw [hl] at h
        exact absurd h (by simp)
    simp only [deleteDevice, hlk]
  · intro d hd
    rw [getDevice] at hd
    refine ⟨?_, ?_, ?_⟩
    · simp only [deleteDevice, hd]
    · simp only [deleteDevice, hd]
    · simp only [deleteDevice, hd, getDevice]
      exact assocLookup_eraseKey_self _ _

/-- Witness for C9 at a concrete registered and a concrete absent
identity. -/
theorem C9_delete_semantics_witness :
    deleteDevice sRegFix (.inr "other") = (false, sRegFix, []) ∧
      ((deleteDevice sRegFix (.inr "shellyplus1-AA")).1 = true ∧
        (deleteDevice sRegFix (.inr "shellyplus1-AA")).2.2 =
          [Event.remove devFix] ∧
        getDevice (deleteDevice sRegFix (.inr "shellyplus1-AA")).2.1
          "shellyplus1-AA" = none) :=
  ⟨(C9_delete_semantics sRegFix (.inr "other")).1 (by decide),
    (C9_delete_semantics sRegFix (.inr "shellyplus1-AA")).2 devFix (by decide)⟩

/-- C10: `has` and `delete` given a Device resolve membership solely by
its id — they agree with the id-based calls — so they succeed even when
the registered instance is a different object sharing the id, and
`delete` then removes (and `remove` carries) the registered instance. -/
theorem C10_resolve_by_id (s : CoordState) (d : Device) :
    hasDevice s (.inl d) = hasDevice s (.inr d.deviceId) ∧
      deleteDevice s (.inl d) = deleteDevice s (.inr d.deviceId) ∧
      (∀ d', getDevice s d.deviceId = some d' →
        hasDevice s (.inl d) = true ∧
          (deleteDevice s (.inl d)).1 = true ∧
          (deleteDevice s (.inl d)).2.2 = [Event.remove d']) := by
  refine ⟨rfl, rfl, ?_⟩
  intro d' hd
  rw [getDevice] at hd
  refine ⟨?_, ?_, ?_⟩
  · simp only [hasDevice, deviceIdOf, hd, Option.isSome_some]
  · simp only [deleteDevice, deviceIdOf, hd]
  · simp only [deleteDevice, deviceIdOf, hd]

/-- Witness for C10: a distinct instance sharing the registered id is
seen as present and its delete removes the registered instance. -/
theorem C10_resolve_by_id_witness :
    hasDevice sRegFix (.inl ⟨"shellyplus1-AA", 42⟩) = true ∧
      (deleteDevice sRegFix (.inl ⟨"shellyplus1-AA", 42⟩)).1 = true ∧
      (deleteDevice sRegFix (.inl ⟨"shellyplus1-AA", 42⟩)).2.2 =
        [Event.remove devFix] :=
  (C10_resolve_by_id sRegFix ⟨"shellyplus1-AA", 42⟩).2.2 devFix (by decide)

/-- C7: option resolution consults exactly one configured source fresh
on each call — the callback's partial result if a callback is
configured, else the table's entry for the id if a table is configured,
else nothing — merged over the defaults (not excluded, no protocol, no
password); the result depends on nothing but the configured source and
the id. -/
theorem C7_options_resolution (cfg : Config) (deviceId : DeviceId) :
    (cfg.deviceOptions = .null →
      getDeviceOptions cfg deviceId = defaultDeviceOptions) ∧
      (∀ fn, cfg.deviceOptions = .callback fn →
        getDeviceOptions cfg deviceId =
          (match fn deviceId with
           | some p => mergePartial p
           | none => defaultDeviceOptions)) ∧
      (∀ entries, cfg.deviceOptions = .table entries →
        getDeviceOptions cfg deviceId =
          (match assocLookup entries deviceId with
           | some p => mergePartial p
           | none => defaultDeviceOptions)) ∧
      defaultDeviceOptions.exclude = false ∧
      defaultDeviceOptions.protocol = none ∧
      defaultDeviceOptions.password = none ∧
      (∀ p, (mergePartial p).exclude = p.exclude.getD false ∧
        (mergePartial p).protocol = p.protocol ∧
        (mergePartial p).password = p.password) ∧
      (∀ cfg₂ : Config, cfg₂.deviceOptions = cfg.deviceOptions →
        getDeviceOptions cfg₂ deviceId = getDeviceOptions cfg deviceId) := by
  refine ⟨?_, ?_, ?_, rfl, rfl, rfl, ?_, ?_⟩
  · intro h
    simp only [getDeviceOptions, h]
  · intro fn h
    simp only [getDeviceOptions, h]
  · intro entries h
    simp only [getDeviceOptions, h]
  · intro p
    refine ⟨rfl, ?_, ?_⟩
    · rw [mergePartial]
      cases p.protocol <;> rfl
    · rw [mergePartial]
      cases p.password <;> rfl
  · intro cfg₂ h
    simp only [getDeviceOptions, h]

/-- Witness for C7: the callback's partial fields override the defaults
for the example id, and the all-null source yields the defaults. -/
theorem C7_options_resolution_witness :
    getDeviceOptions cfgCallbackFix "shellyplus1-AA" =
      { exclude := false, protocol := some .outboundWebsocket,
        password := some "secret" } ∧
      getDeviceOptions cfgFix "shellyplus1-AA" = defaultDeviceOptions :=
  ⟨((C7_options_resolution cfgCallbackFix "shellyplus1-AA").2.1 _ rfl).trans
      (by decide),
    (C7_options_resolution cfgFix "shellyplus1-AA").1 rfl⟩

/-- Counterexample to C3 as stated: from the empty initial state, a
discovery that ends in exclusion makes the id Ignored, after which the
spec-permitted explicit `add` of that identity succeeds and leaves it
simultaneously Ignored and registered — the Ignored/Registry exclusion
is not preserved by `add`. -/
theorem C3_counterexample :
    MutualExclusion
      (runOps cfgExclFix initialState
        [Op.discover jExclFix, Op.resume jExclFix]).1 ∧
      ("shellyplus1-AA" ∈
        (runOps cfgExclFix initialState
          [Op.discover jExclFix, Op.resume jExclFix, Op.addOp devFix]).1.ignoredDevices ∧
        (assocLookup
          (runOps cfgExclFix initialState
            [Op.discover jExclFix, Op.resume jExclFix, Op.addOp devFix]).1.devices
          "shellyplus1-AA").isSome = true) ∧
      ¬ MutualExclusion
        (runOps cfgExclFix initialState
          [Op.discover jExclFix, Op.resume jExclFix, Op.addOp devFix]).1 := by
  decide

/-- C3 amended: in every state satisfying the coordinator invariant,
Pending and Ignored membership are each mutually exclusive with registry
membership, and this is preserved by discover handling (both phases), by
`delete` and by `clear`; an explicit `add` preserves it provided the
added identity is not currently Pending or Ignored (the spec permits an
explicit `add` of an Ignored identity, which violates the exclusion). -/
theorem C3_mutual_exclusion (cfg : Config) (s : CoordState) (hwf : WF s) :
    MutualExclusion s ∧
      (∀ op, discoverOnly op = true → MutualExclusion (applyOp cfg s op).1) ∧
      (∀ x, MutualExclusion (deleteDevice s x).2.1) ∧
      MutualExclusion (clearDevices s).1 ∧
      (∀ device s₂ events, addDevice s device = .ok (s₂, events) →
        device.deviceId ∉ s.pendingDevices →
        device.deviceId ∉ s.ignoredDevices →
        MutualExclusion s₂) := by
  refine ⟨⟨hwf.1, hwf.2.1⟩, ?_, ?_, ?_, ?_⟩
  · intro op hop
    have h := wf_applyOp_discover cfg hwf hop
    exact ⟨h.1, h.2.1⟩
  · intro x
    have h := wf_deleteDevice hwf x
    exact ⟨h.1, h.2.1⟩
  · have h := wf_clearDevices hwf
    exact ⟨h.1, h.2.1⟩
  · intro device s₂ events hadd hp hi
    have h := wf_addDevice_fresh hwf hadd hp hi
    exact ⟨h.1, h.2.1⟩

/-- Witness for the amended C3 at a concrete Pending state. -/
theorem C3_mutual_exclusion_witness :
    WF sPendingFix ∧
      MutualExclusion sPendingFix ∧
      MutualExclusion (applyOp cfgFix sPendingFix (.resume jFix)).1 ∧
      MutualExclusion (deleteDevice sPendingFix (.inr "other")).2.1 ∧
      MutualExclusion (clearDevices sPendingFix).1 ∧
      MutualExclusion
        { sPendingFix with devices := [("other", ⟨"other", 3⟩)] } :=
  have h := C3_mutual_exclusion cfgFix sPendingFix (by decide)
  ⟨by decide, h.1, h.2.1 (.resume jFix) (by decide), h.2.2.1 (.inr "other"),
    h.2.2.2.1,
    h.2.2.2.2 ⟨"other", 3⟩ { sPendingFix with devices := [("other", ⟨"other", 3⟩)] }
      [Event.add ⟨"other", 3⟩] (by decide) (by decide) (by decide)⟩

/-- C2: the Pending check and insert happen in one synchronous step on
receipt of a discover event (this is the `handleDiscover` step of the
model, before any suspension), so when two discover events for the same
identity arrive before the first resolution resumes, the second is
dropped: the whole run emits exactly one `add` and the registry ends
with exactly one binding for the identity. -/
theorem C2_race_single_add (cfg : Config) (s : CoordState)
    (j₁ j₂ : DeviceIdentifiers) (cls : Nat) (handler : RpcHandler)
    (hid : j₂.deviceId = j₁.deviceId)
    (hlk : assocLookup s.devices j₁.deviceId = none)
    (hp : j₁.deviceId ∉ s.pendingDevices)
    (hi : j₁.deviceId ∉ s.ignoredDevices)
    (hexc : (getDeviceOptions cfg j₁.deviceId).exclude = false)
    (hcls : cfg.deviceClasses j₁.model = some cls)
    (hrpc : createRpcHandler cfg j₁ (getDeviceOptions cfg j₁.deviceId) = .ok handler) :
    (runOps cfg s [.discover j₁, .discover j₂, .resume j₁, .resume j₂]).2 =
      [Event.add ⟨j₁.deviceId, cfg.construct cls j₁ handler⟩] ∧
      assocLookup
        (runOps cfg s [.discover j₁, .discover j₂, .resume j₁, .resume j₂]).1.devices
        j₁.deviceId = some ⟨j₁.deviceId, cfg.construct cls j₁ handler⟩ ∧
      List.countP (fun e => e.1 = j₁.deviceId)
        (runOps cfg s [.discover j₁, .discover j₂, .resume j₁, .resume j₂]).1.devices
        = 1 := by
  have hcond : ¬ ((assocLookup s.devices j₁.deviceId).isSome = true ∨
      j₁.deviceId ∈ s.pendingDevices ∨ j₁.deviceId ∈ s.ignoredDevices) := by
    rintro (h | h | h)
    · rw [hlk] at h
      exact Bool.noConfusion h
    · exact hp h
    · exact hi h
  have ha1 : applyOp cfg s (.discover j₁) =
      ({ s with pendingDevices := j₁.deviceId :: s.pendingDevices,
                inflight := j₁ :: s.inflight }, []) := by
    show handleDiscover s j₁ = _
    rw [handleDiscover, if_neg hcond]
  have ha2 : applyOp cfg
      { s with pendingDevices := j₁.deviceId :: s.pendingDevices,
               inflight := j₁ :: s.inflight } (.discover j₂) =
      ({ s with pendingDevices := j₁.deviceId :: s.pendingDevices,
                inflight := j₁ :: s.inflight }, []) := by
    show handleDiscover _ j₂ = _
    rw [handleDiscover, if_pos]
    right; left
    show j₂.deviceId ∈ j₁.deviceId :: s.pendingDevices
    rw [hid]
    exact List.mem_cons_self _ _
  have ha3 : applyOp cfg
      { s with pendingDevices := j₁.deviceId :: s.pendingDevices,
               inflight := j₁ :: s.inflight } (.resume j₁) =
      ({ devices :=
           (j₁.deviceId, ⟨j₁.deviceId, cfg.construct cls j₁ handler⟩) :: s.devices,
         pendingDevices := removeId (j₁.deviceId :: s.pendingDevices) j₁.deviceId,
         ignoredDevices := s.ignoredDevices,
         inflight := removeInflight (j₁ :: s.inflight) j₁.deviceId },
       [Event.add ⟨j₁.deviceId, cfg.construct cls j₁ handler⟩]) := by
    show resumeStep cfg _ j₁ = _
    rw [resumeStep, if_pos (List.mem_cons_self j₁ _)]
    exact resumeDiscovery_success cfg _ j₁ cls handler hexc hcls hrpc hlk
  have ha4 : applyOp cfg
      { devices :=
          (j₁.deviceId, ⟨j₁.deviceId, cfg.construct cls j₁ handler⟩) :: s.devices,
        pendingDevices := removeId (j₁.deviceId :: s.pendingDevices) j₁.deviceId,
        ignoredDevices := s.ignoredDevices,
        inflight := removeInflight (j₁ :: s.inflight) j₁.deviceId } (.resume j₂) =
      ({ devices :=
           (j₁.deviceId, ⟨j₁.deviceId, cfg.construct cls j₁ handler⟩) :: s.devices,
         pendingDevices := removeId (j₁.deviceId :: s.pendingDevices) j₁.deviceId,
         ignoredDevices := s.ignoredDevices,
         inflight := removeInflight (j₁ :: s.inflight) j₁.deviceId }, []) := by
    show resumeStep cfg _ j₂ = _
    rw [resumeStep, if_neg]
    intro hmem
    exact (mem_removeInflight.mp hmem).2 hid
  have hrun : runOps cfg s [.discover j₁, .discover j₂, .resume j₁, .resume j₂] =
      ({ devices :=
           (j₁.deviceId, ⟨j₁.deviceId, cfg.construct cls j₁ handler⟩) :: s.devices,
         pendingDevices := removeId (j₁.deviceId :: s.pendingDevices) j₁.deviceId,
         ignoredDevices := s.ignoredDevices,
         inflight := removeInflight (j₁ :: s.inflight) j₁.deviceId },
       [Event.add ⟨j₁.deviceId, cfg.construct cls j₁ handler⟩]) := by
    simp only [runOps_cons, ha1, ha2, ha3, ha4, runOps, List.append_nil,
      List.nil_append]
  rw [hrun]
  refine ⟨rfl, assocLookup_cons_self _ _ _, ?_⟩
  rw [List.countP_cons]
  have h0 : List.countP (fun e => decide (e.1 = j₁.deviceId)) s.devices = 0 :=
    countP_key_eq_zero hlk
  simp [h0]

/-- Witness for C2: two discoveries of the example device from different
addresses race; one `add` fires and one binding results. -/
theorem C2_race_single_add_witness :
    (runOps cfgFix initialState
        [.discover jFix, .discover jFix2, .resume jFix, .resume jFix2]).2 =
      [Event.add ⟨"shellyplus1-AA", 1⟩] ∧
      assocLookup
        (runOps cfgFix initialState
          [.discover jFix, .discover jFix2, .resume jFix, .resume jFix2]).1.devices
        "shellyplus1-AA" = some ⟨"shellyplus1-AA", 1⟩ ∧
      List.countP (fun e => e.1 = "shellyplus1-AA")
        (runOps cfgFix initialState
          [.discover jFix, .discover jFix2, .resume jFix, .resume jFix2]).1.devices
        = 1 :=
  C2_race_single_add cfgFix initialState jFix jFix2 1 (.websocket "10.0.0.5" none)
    (by decide) (by decide) (by decide) (by decide) (by decide) (by decide)
    (by decide)

/-- C6: when the resolved options select the outbound WebSocket protocol
but no outbound server is configured, a discovery of the identity yields
exactly one `error` event, leaves it unregistered, not Pending and not
Ignored; and a later discovery under a configuration that supplies a
server succeeds, firing `add` and registering the device. -/
theorem C6_outbound_missing_server (cfg : Config) (s : CoordState)
    (j : DeviceIdentifiers) (cls : Nat)
    (hsrv : cfg.websocketServer = none)
    (hexc : (getDeviceOptions cfg j.deviceId).exclude = false)
    (hproto : (getDeviceOptions cfg j.deviceId).protocol = some .outboundWebsocket)
    (hcls : cfg.deviceClasses j.model = some cls)
    (hlk : assocLookup s.devices j.deviceId = none)
    (hp : j.deviceId ∉ s.pendingDevices)
    (hi : j.deviceId ∉ s.ignoredDevices) :
    (runOps cfg s [.discover j, .resume j]).2 =
      [Event.error j.deviceId .missingWebsocketServer] ∧
      assocLookup (runOps cfg s [.discover j, .resume j]).1.devices j.deviceId =
        none ∧
      j.deviceId ∉ (runOps cfg s [.discover j, .resume j]).1.pendingDevices ∧
      j.deviceId ∉ (runOps cfg s [.discover j, .resume j]).1.ignoredDevices ∧
      (∀ srv : OutboundWebSocketServer,
        (runOps { cfg with websocketServer := some srv }
            (runOps cfg s [.discover j, .resume j]).1 [.discover j, .resume j]).2 =
          [Event.add ⟨j.deviceId, cfg.construct cls j (.outboundWebsocket j.deviceId)⟩] ∧
        assocLookup
          (runOps { cfg with websocketServer := some srv }
            (runOps cfg s [.discover j, .resume j]).1 [.discover j, .resume j]).1.devices
          j.deviceId =
          some ⟨j.deviceId, cfg.construct cls j (.outboundWebsocket j.deviceId)⟩) := by
  have hrpc : createRpcHandler cfg j (getDeviceOptions cfg j.deviceId) =
      .error .missingWebsocketServer := by
    simp only [createRpcHandler, hproto, hsrv]
  have hcond : ¬ ((assocLookup s.devices j.deviceId).isSome = true ∨
      j.deviceId ∈ s.pendingDevices ∨ j.deviceId ∈ s.ignoredDevices) := by
    rintro (h | h | h)
    · rw [hlk] at h
      exact Bool.noConfusion h
    · exact hp h
    · exact hi h
  have ha1 : applyOp cfg s (.discover j) =
      ({ s with pendingDevices := j.deviceId :: s.pendingDevices,
                inflight := j :: s.inflight }, []) := by
    show handleDiscover s j = _
    rw [handleDiscover, if_neg hcond]
  have ha2 : applyOp cfg
      { s with pendingDevices := j.deviceId :: s.pendingDevices,
               inflight := j :: s.inflight } (.resume j) =
      ({ devices := s.devices,
         pendingDevices := removeId (j.deviceId :: s.pendingDevices) j.deviceId,
         ignoredDevices := s.ignoredDevices,
         inflight := removeInflight (j :: s.inflight) j.deviceId },
       [Event.error j.deviceId .missingWebsocketServer]) := by
    show resumeStep cfg _ j = _
    rw [resumeStep, if_pos (List.mem_cons_self j _)]
    exact resumeDiscovery_rpc_error cfg _ j cls .missingWebsocketServer hexc hcls hrpc
  have hrun : runOps cfg s [.discover j, .resume j] =
      ({ devices := s.devices,
         pendingDevices := removeId (j.deviceId :: s.pendingDevices) j.deviceId,
         ignoredDevices := s.ignoredDevices,
         inflight := removeInflight (j :: s.inflight) j.deviceId },
       [Event.error j.deviceId .missingWebsocketServer]) := by
    simp only [runOps_cons, ha1, ha2, runOps, List.append_nil, List.nil_append]
  rw [hrun]
  refine ⟨rfl, hlk, not_mem_removeId_self _ _, hi, ?_⟩
  intro srv
  have hexc₂ : (getDeviceOptions { cfg with websocketServer := some srv }
      j.deviceId).exclude = false := hexc
  have hproto₂ : (getDeviceOptions { cfg with websocketServer := some srv }
      j.deviceId).protocol = some .outboundWebsocket := hproto
  have hcls₂ : ({ cfg with websocketServer := some srv } : Config).deviceClasses
      j.model = some cls := hcls
  have hrpc₂ : createRpcHandler { cfg with websocketServer := some srv } j
      (getDeviceOptions { cfg with websocketServer := some srv } j.deviceId) =
      .ok (.outboundWebsocket j.deviceId) := by
    simp only [createRpcHandler, hproto₂]
  have hcond₂ : ¬ ((assocLookup s.devices j.deviceId).isSome = true ∨
      j.deviceId ∈ removeId (j.deviceId :: s.pendingDevices) j.deviceId ∨
      j.deviceId ∈ s.ignoredDevices) := by
    rintro (h | h | h)
    · rw [hlk] at h
      exact Bool.noConfusion h
    · exact not_mem_removeId_self _ _ h
    · exact hi h
  have hb1 : applyOp { cfg with websocketServer := some srv }
      { devices := s.devices,
        pendingDevices := removeId (j.deviceId :: s.pendingDevices) j.deviceId,
        ignoredDevices := s.ignoredDevices,
        inflight := removeInflight (j :: s.inflight) j.deviceId } (.discover j) =
      ({ devices := s.devices,
         pendingDevices :=
           j.deviceId :: removeId (j.deviceId :: s.pendingDevices) j.deviceId,
         ignoredDevices := s.ignoredDevices,
         inflight := j :: removeInflight (j :: s.inflight) j.deviceId }, []) := by
    show handleDiscover _ j = _
    rw [handleDiscover, if_neg hcond₂]
  have hb2 : applyOp { cfg with websocketServer := some srv }
      { devices := s.devices,
        pendingDevices :=
          j.deviceId :: removeId (j.deviceId :: s.pendingDevices) j.deviceId,
        ignoredDevices := s.ignoredDevices,
        inflight := j :: removeInflight (j :: s.inflight) j.deviceId } (.resume j) =
      ({ devices :=
           (j.deviceId,
             ⟨j.deviceId, cfg.construct cls j (.outboundWebsocket j.deviceId)⟩) ::
             s.devices,
         pendingDevices :=
           removeId
             (j.deviceId :: removeId (j.deviceId :: s.pendingDevices) j.deviceId)
             j.deviceId,
         ignoredDevices := s.ignoredDevices,
         inflight :=
           removeInflight (j :: removeInflight (j :: s.inflight) j.deviceId)
             j.deviceId },
       [Event.add
         ⟨j.deviceId, cfg.construct cls j (.outboundWebsocket j.deviceId)⟩]) := by
    show resumeStep _ _ j = _
    rw [resumeStep, if_pos (List.mem_cons_self j _)]
    exact resumeDiscovery_success { cfg with websocketServer := some srv } _ j cls
      (.outboundWebsocket j.deviceId) hexc₂ hcls₂ hrpc₂ hlk
  have hrun₂ : runOps { cfg with websocketServer := some srv }
      { devices := s.devices,
        pendingDevices := removeId (j.deviceId :: s.pendingDevices) j.deviceId,
        ignoredDevices := s.ignoredDevices,
        inflight := removeInflight (j :: s.inflight) j.deviceId }
      [.discover j, .resume j] =
      ({ devices :=
           (j.deviceId,
             ⟨j.deviceId, cfg.construct cls j (.outboundWebsocket j.deviceId)⟩) ::
             s.devices,
         pendingDevices :=
           removeId
             (j.deviceId :: removeId (j.deviceId :: s.pendingDevices) j.deviceId)
             j.deviceId,
         ignoredDevices := s.ignoredDevices,
         inflight :=
           removeInflight (j :: removeInflight (j :: s.inflight) j.deviceId)
             j.deviceId },
       [Event.add
         ⟨j.deviceId, cfg.construct cls j (.outboundWebsocket j.deviceId)⟩]) := by
    simp only [runOps_cons, hb1, hb2, runOps, List.append_nil, List.nil_append]
  rw [hrun₂]
  exact ⟨rfl, assocLookup_cons_self _ _ _⟩

/-- Witness for C6 at the example device and the empty initial state. -/
theorem C6_outbound_missing_server_witness :
    (runOps cfgOutboundFix initialState [.discover jFix, .resume jFix]).2 =
      [Event.error "shellyplus1-AA" .missingWebsocketServer] ∧
      assocLookup
        (runOps cfgOutboundFix initialState [.discover jFix, .resume jFix]).1.devices
        "shellyplus1-AA" = none ∧
      "shellyplus1-AA" ∉
        (runOps cfgOutboundFix initialState [.discover jFix, .resume jFix]).1.pendingDevices ∧
      "shellyplus1-AA" ∉
        (runOps cfgOutboundFix initialState [.discover jFix, .resume jFix]).1.ignoredDevices ∧
      (∀ srv : OutboundWebSocketServer,
        (runOps { cfgOutboundFix with websocketServer := some srv }
            (runOps cfgOutboundFix initialState [.discover jFix, .resume jFix]).1
            [.discover jFix, .resume jFix]).2 =
          [Event.add ⟨"shellyplus1-AA", 1⟩] ∧
        assocLookup
          (runOps { cfgOutboundFix with websocketServer := some srv }
            (runOps cfgOutboundFix initialState [.discover jFix, .resume jFix]).1
            [.discover jFix, .resume jFix]).1.devices
          "shellyplus1-AA" = some ⟨"shellyplus1-AA", 1⟩) :=
  C6_outbound_missing_server cfgOutboundFix initialState jFix 1
    (by decide) (by decide) (by decide) (by decide) (by decide) (by decide)
    (by decide)

end Shellies
